import Mathlib

/-!
A shallow embedding of `wkflws_dbm`: the TTL cache module `cache.py`
(`get`, `set`, `list`, `clean`) and the workflow node wrapper `set.py`.

Modelling conventions:
* A dbm store file is an association list from key to stored payload
  (`Db`); a store path's state is `Option (Db α)` with `none` meaning
  "no file exists at `db_path`" (`Store`).
* Pickle serialization is abstracted away: the store holds decoded
  payloads, and the possibility that `serialize_func` raises for a given
  value is modelled by the `serialize_ok : Bool` argument of `set`
  (`pickle.dumps` fails or succeeds before any file access happens).
* Time (`epoch()`, i.e. `int(time.time())`) is an explicit `Int`
  argument `now` to each operation that reads the clock.
* Python `None` and the legacy whole-payload return of `get` are the
  constructors of `PyVal`.
* The event-loop offload (`run_in_executor`) and the process write lock
  do not change the sequential semantics of a single call and are not
  modelled; each operation is a function of the store state it observes.
* The dbm engine (`dbm.gnu`): `open(path, "rf")` raises an engine error
  when no file exists at `path`; `open(path, "cs")` creates an empty
  file when none exists.  `reorganize()` (compaction) reclaims space and
  leaves the mapping unchanged.
-/

namespace WkflwsDbm

/-- A decoded cache payload: the Python dict `{"exp": ..., "v": ...}`.
`v` is `Option` because legacy payloads may lack the `"v"` wrapper
(`get` then returns the whole payload).  Both readers access the expiry
as `payload.get("exp", 0)` and test it for truthiness, so an absent
`"exp"` is indistinguishable from `0` and is modelled as `exp = 0`. -/
structure Payload (α : Type) where
  exp : Int
  v : Option α
deriving DecidableEq

/-- The contents of one dbm store file: an association list from key to
payload (keys are unique in any state a dbm file can be in). -/
abbrev Db (α : Type) := List (String × Payload α)

/-- The state of a store path: `none` when no file exists at `db_path`,
`some db` when the file exists with contents `db`. -/
abbrev Store (α : Type) := Option (Db α)

/-- The module's exception taxonomy: `CacheError` and its subclass
`CacheKeyNotFoundError`. -/
inductive CacheErr where
  | cacheError
  | keyNotFoundError
deriving DecidableEq

/-- An error raised by the dbm engine itself, e.g. `dbm.open(path, "rf")`
on a path where no file exists. -/
inductive DbmErr where
  | fileOpenError
deriving DecidableEq

/-- A Python value as handled by `get`: `None`, a cached value, or (for
legacy payloads without a `"v"` field) a whole payload dict. -/
inductive PyVal (α : Type) where
  | pyNone
  | ofVal (a : α)
  | ofPayload (p : Payload α)
deriving DecidableEq

variable {α : Type}

/-- `db.get(k)`: the first binding of `k` in the file, if any. -/
def dbLookup : Db α → String → Option (Payload α)
  | [], _ => none
  | (k', p) :: rest, k => if k' = k then some p else dbLookup rest k

/-- `db[k] = p`: replace the binding of `k` if present, else add one. -/
def dbInsert : Db α → String → Payload α → Db α
  | [], k, p => [(k, p)]
  | (k', p') :: rest, k, p =>
      if k' = k then (k, p) :: rest else (k', p') :: dbInsert rest k p

/-- The keys of the file in engine enumeration order
(`firstkey`/`nextkey`). -/
def dbKeys (db : Db α) : List String := db.map Prod.fst

/-- The inner `read_value` of `get`: `None` when the file does not exist
(`os.path.exists` guard) or when `db.get(key)` finds nothing; otherwise
the stored payload. -/
def read_value (store : Store α) (key : String) : Option (Payload α) :=
  match store with
  | none => none
  | some db => dbLookup db key

/-- `cache.get(db_path, key, default, raise_on_miss)` at clock value
`now`: raises `CacheKeyNotFoundError` only when `read_value` returns
`None` and `raise_on_miss` is set; an entry whose `exp` is truthy and
`≤ now` yields `default`; otherwise the `"v"` field (or, legacy, the
whole payload) is returned.  The second component is the store state
after the call. -/
def get (store : Store α) (key : String) (dflt : PyVal α)
    (raise_on_miss : Bool) (now : Int) :
    Except CacheErr (PyVal α) × Store α :=
  match read_value store key with
  | none =>
      if raise_on_miss then (.error .keyNotFoundError, store)
      else (.ok dflt, store)
  | some payload =>
      if payload.exp ≠ 0 ∧ now ≥ payload.exp then (.ok dflt, store)
      else
        match payload.v with
        | some v => (.ok (.ofVal v), store)
        | none => (.ok (.ofPayload payload), store)

/-- `cache.set(db_path, key, value, expiry_secs)` at clock value `now`.
The payload `{"exp": epoch() + expiry_secs, "v": value}` is built and
serialized first; when serialization fails (`serialize_ok = false`) the
call raises `CacheError` before the file is opened.  Otherwise
`dbm.open(db_path, "cs")` creates the file if missing and `db[key]` is
written.  The function body ends without a `return`, so a successful
call returns Python `None` (`Except.ok none`). -/
def set (store : Store α) (key : String) (value : α) (expiry_secs : Int)
    (now : Int) (serialize_ok : Bool) :
    Except CacheErr (Option α) × Store α :=
  if serialize_ok then
    let payload : Payload α := { exp := now + expiry_secs, v := some value }
    let db := store.getD []
    (.ok none, some (dbInsert db key payload))
  else
    (.error .cacheError, store)

/-- `cache.list(db_path, keys_only)`: opens the file with
`dbm.open(db_path, "rf")`, which raises an engine error when the file
does not exist (there is no `os.path.exists` guard in `list`).  On
success it walks `firstkey`/`nextkey` and prints each key, with its
decoded payload unless `keys_only`; the printed sequence is the result
value here. -/
def list (store : Store α) (keys_only : Bool) :
    Except DbmErr (List (String × Option (Payload α))) × Store α :=
  match store with
  | none => (.error .fileOpenError, none)
  | some db =>
      (.ok (db.map fun kp => (kp.1, if keys_only then none else some kp.2)),
       some db)

/-- The sweep of `clean`: walk the keys and delete every entry whose
`exp` is truthy and less than the cutoff. -/
def cleanDb (cutoff : Int) : Db α → Db α
  | [] => []
  | (k, p) :: rest =>
      if p.exp ≠ 0 ∧ cutoff > p.exp then cleanDb cutoff rest
      else (k, p) :: cleanDb cutoff rest

/-- `cache.clean(db_path, older_than_ts, compact)` at clock value `now`.
A falsy `older_than_ts` (Python `None`, modelled `none`, or `0`) is
replaced by `epoch()`.  `dbm.open(db_path, "cs")` creates the file if
missing; the sweep then deletes the stale entries.  `reorganize()`
(when `compact`) does not change the mapping. -/
def clean (store : Store α) (older_than_ts : Option Int) (now : Int)
    (compact : Bool) : Except CacheErr Unit × Store α :=
  let cutoff :=
    match older_than_ts with
    | none => now
    | some t => if t = 0 then now else t
  let db := store.getD []
  (.ok (), some (cleanDb cutoff db))

/-- The input message of the workflow node `set.py`: the `Parameters`
fields it reads.  `expiry_secs` is read with `message.get` and default
`300`. -/
structure Message where
  filename : Option String
  key : Option String
  value : Option String
  expiry_secs : Option Int

/-- Errors of the workflow node: `ValueError` for a missing or invalid
parameter, or a propagated cache error. -/
inductive NodeErr where
  | valueError
  | cacheErr (e : CacheErr)

/-- Python's `c in s` for a one-character pattern `c`: membership of the
character among the string's characters. -/
def strHasChar (s : String) (c : Char) : Bool := s.data.contains c

/-- The workflow node `set` of `set.py`: validates `filename` (no `/`,
`\`, or `.`), extracts `key` and `value`, calls `cache.set` with
`expiry_secs` defaulting to `300`, and returns the stored `value`. -/
def setNode (msg : Message) (store : Store String) (now : Int)
    (serialize_ok : Bool) : Except NodeErr (String × Store String) :=
  match msg.filename with
  | none => .error .valueError
  | some fn =>
      if strHasChar fn '/' || strHasChar fn '\\' || strHasChar fn '.' then
        .error .valueError
      else
        match msg.key with
        | none => .error .valueError
        | some k =>
            match msg.value with
            | none => .error .valueError
            | some v =>
                match set store k v (msg.expiry_secs.getD 300) now
                    serialize_ok with
                | (.ok _, store') => .ok (v, store')
                | (.error e, _) => .error (.cacheErr e)

/-- Inserting under `k` makes `k` look up to the inserted payload. -/
theorem dbLookup_dbInsert_self (db : Db α) (k : String) (p : Payload α) :
    dbLookup (dbInsert db k p) k = some p := by
  induction db with
  | nil => simp [dbInsert, dbLookup]
  | cons hd tl ih =>
      obtain ⟨k', p'⟩ := hd
      by_cases h : k' = k
      · simp [dbInsert, h, dbLookup]
      · simp [dbInsert, h, dbLookup, ih]

/-- The sweep keeps exactly the entries that are not stale: an entry
survives `cleanDb cutoff` iff it was present and does not satisfy
`exp ≠ 0 ∧ cutoff > exp`. -/
theorem mem_cleanDb (cutoff : Int) (db : Db α) (k : String) (p : Payload α) :
    (k, p) ∈ cleanDb cutoff db ↔
      (k, p) ∈ db ∧ ¬(p.exp ≠ 0 ∧ cutoff > p.exp) := by
  induction db with
  | nil => simp [cleanDb]
  | cons hd tl ih =>
      obtain ⟨k', p'⟩ := hd
      by_cases h : p'.exp ≠ 0 ∧ cutoff > p'.exp
      · rw [show cleanDb cutoff ((k', p') :: tl) = cleanDb cutoff tl from
          if_pos h, ih, List.mem_cons]
        constructor
        · rintro ⟨hm, hc⟩
          exact ⟨Or.inr hm, hc⟩
        · rintro ⟨heq | hm, hc⟩
          · rw [Prod.mk.injEq] at heq
            obtain ⟨rfl, rfl⟩ := heq
            exact absurd h hc
          · exact ⟨hm, hc⟩
      · rw [show cleanDb cutoff ((k', p') :: tl)
            = (k', p') :: cleanDb cutoff tl from if_neg h,
          List.mem_cons, ih, List.mem_cons]
        constructor
        · rintro (heq | ⟨hm, hc⟩)
          · rw [Prod.mk.injEq] at heq
            obtain ⟨rfl, rfl⟩ := heq
            exact ⟨Or.inl rfl, h⟩
          · exact ⟨Or.inr hm, hc⟩
        · rintro ⟨heq | hm, hc⟩
          · exact Or.inl heq
          · exact Or.inr ⟨hm, hc⟩

/-- C6: when serializing the payload fails, `set` raises `CacheError`
and the store state is completely unchanged: no write happens and an
absent store file is not created (serialization runs before the file is
opened). -/
theorem C6_set_serialization_failure_atomic (store : Store α) (k : String)
    (v : α) (t now : Int) :
    set store k v t now false = (.error .cacheError, store) := rfl

/-- C9: `get` never mutates the store: for every store state, key,
default, `raise_on_miss` flag and clock value, the store after `get`
equals the store before — in particular an entry found expired is not
deleted. -/
theorem C9_get_never_mutates (store : Store α) (k : String)
    (dflt : PyVal α) (r : Bool) (now : Int) :
    (get store k dflt r now).2 = store := by
  unfold get
  split
  · split <;> rfl
  · split
    · rfl
    · split <;> rfl

/-- C10: calling `clean` with an explicit `older_than_ts = 0` behaves
identically to omitting the argument: `0` is falsy, so the cutoff is
replaced by `now()`, and the sweep deletes the already-expired entries
(cutoff `now`) instead of treating `0` as a cutoff below every expiry. -/
theorem C10_clean_zero_cutoff_is_now (store : Store α) (now : Int)
    (c : Bool) :
    clean store (some 0) now c = clean store none now c ∧
    clean store (some 0) now c
      = (.ok (), some (cleanDb now (store.getD []))) :=
  ⟨rfl, rfl⟩

/-- C7 counterexample: with no file at the path, `list` does not
complete — `dbm.open(db_path, "rf")` has no `os.path.exists` guard in
`list` and raises the engine's open error. -/
theorem C7_list_absent_file_cex :
    ¬ ∃ out, (list (none : Store String) false).1 = Except.ok out := by
  rintro ⟨out, h⟩
  simp [list] at h

/-- C7 amended: a store file absent at the path is a defined miss for
`get` (default back, or `CacheKeyNotFoundError` exactly when
`raise_on_miss` is set), but `list` on an absent file raises the
engine's open error instead of completing. -/
theorem C7_absent_file_behavior (k : String) (dflt : PyVal α) (now : Int)
    (ko : Bool) :
    (get (none : Store α) k dflt false now).1 = .ok dflt ∧
    (get (none : Store α) k dflt true now).1 = .error .keyNotFoundError ∧
    (list (none : Store α) ko).1 = .error .fileOpenError :=
  ⟨rfl, rfl, rfl⟩

/-- C8 counterexample: `clean` on a path with no store file opens the
engine in mode "cs", which creates the file — after the call an (empty)
store exists, contradicting the claim that no operation besides `set`
creates it. -/
theorem C8_clean_creates_file_cex :
    (clean (none : Store String) none 10 false).2 = some [] ∧
    some ([] : Db String) ≠ (none : Store String) :=
  ⟨rfl, by simp⟩

/-- C8 amended: the store file is created lazily by the first successful
mutating call — `set` or `clean`, both of which open the engine in
create mode — while the read-only operations `get` and `list` never
create it. -/
theorem C8_file_creation (k : String) (v : α) (t now : Int)
    (ot : Option Int) (c ko : Bool) (dflt : PyVal α) (r : Bool) :
    (set (none : Store α) k v t now true).2
      = some [(k, ⟨now + t, some v⟩)] ∧
    (clean (none : Store α) ot now c).2 = some [] ∧
    (get (none : Store α) k dflt r now).2 = none ∧
    (list (none : Store α) ko).2 = none := by
  refine ⟨rfl, rfl, ?_, rfl⟩
  cases r <;> rfl

/-- C1 counterexample: at clock value 1000, `set` with `expiry_secs = 0`
stores `exp = 1000 + 0 = 1000`, not the never-expires sentinel `0`, and
a `get` at that very instant already treats the entry as expired and
returns the default. -/
theorem C1_ttl_zero_cex :
    read_value (set (none : Store String) "k" "v" 0 1000 true).2 "k"
      = some ⟨1000, some "v"⟩ ∧
    (1000 : Int) ≠ 0 ∧
    (get (set (none : Store String) "k" "v" 0 1000 true).2 "k"
      .pyNone false 1000).1 = .ok .pyNone :=
  ⟨rfl, by decide, rfl⟩

/-- C1 amended: `set` with `expiry_secs = 0` stores `exp = now()` (the
clock at set time); since the epoch is nonzero, a subsequent `get` at
any instant `now' ≥ now` treats the entry as expired and returns the
default.  Only a payload whose stored `exp` field is `0` is never
treated as expired by `get` — `set` with ttl `0` does not produce one. -/
theorem C1_ttl_zero_expires_immediately (store : Store α) (k : String)
    (v : α) (dflt : PyVal α) (r : Bool) (now now' : Int)
    (h0 : now ≠ 0) (h1 : now ≤ now') :
    read_value (set store k v 0 now true).2 k = some ⟨now, some v⟩ ∧
    (get (set store k v 0 now true).2 k dflt r now').1 = .ok dflt ∧
    (get (some [(k, ⟨0, some v⟩)]) k dflt r now').1 = .ok (.ofVal v) := by
  have hl : read_value (set store k v 0 now true).2 k
      = some ⟨now + 0, some v⟩ := by
    simp [set, read_value, dbLookup_dbInsert_self]
  rw [Int.add_zero] at hl
  refine ⟨hl, ?_, ?_⟩
  · have hc : (⟨now, some v⟩ : Payload α).exp ≠ 0 ∧
        now' ≥ (⟨now, some v⟩ : Payload α).exp := ⟨h0, h1⟩
    simp only [get, hl, if_pos hc]
  · simp [get, read_value, dbLookup]

/-- C1 witness: the amended statement at `now = 1000`, `now' = 2000`. -/
theorem C1_ttl_zero_witness :
    (1000 : Int) ≠ 0 ∧ (1000 : Int) ≤ 2000 ∧
    read_value (set (none : Store String) "w" "v" 0 1000 true).2 "w"
      = some ⟨1000, some "v"⟩ ∧
    (get (set (none : Store String) "w" "v" 0 1000 true).2 "w" .pyNone
      false 2000).1 = .ok .pyNone ∧
    (get (some [("w", (⟨0, some "v"⟩ : Payload String))]) "w" .pyNone
      false 2000).1 = .ok (.ofVal "v") := by
  have h := C1_ttl_zero_expires_immediately (none : Store String) "w" "v"
    .pyNone false 1000 2000 (by decide) (by decide)
  exact ⟨by decide, by decide, h.1, h.2.1, h.2.2⟩

/-- C2 counterexample: the entry under "k" exists but is expired
(`exp = 5 ≠ 0` and `now = 10 ≥ 5`); `get` with `raise_on_miss = True`
returns the default instead of raising `CacheKeyNotFoundError`. -/
theorem C2_expired_raise_on_miss_cex :
    (get (some [("k", (⟨5, some "v"⟩ : Payload String))]) "k" .pyNone
      true 10).1 = .ok .pyNone ∧
    (Except.ok PyVal.pyNone : Except CacheErr (PyVal String))
      ≠ .error .keyNotFoundError :=
  ⟨rfl, fun h => Except.noConfusion h⟩

/-- C2 amended: with `raise_on_miss = True`, `get` raises
`CacheKeyNotFoundError` exactly on a raw-lookup miss (no store file, or
no entry under the key); when an entry exists but is expired, `get`
returns the default without raising, even with `raise_on_miss = True`. -/
theorem C2_raise_only_on_raw_miss (store : Store α) (k : String)
    (dflt : PyVal α) (now : Int) :
    (read_value store k = none →
      (get store k dflt true now).1 = .error .keyNotFoundError) ∧
    (∀ p : Payload α, read_value store k = some p → p.exp ≠ 0 →
      now ≥ p.exp → (get store k dflt true now).1 = .ok dflt) := by
  constructor
  · intro h
    simp [get, h]
  · intro p hp h0 hexp
    simp only [get, hp, if_pos (And.intro h0 hexp)]

/-- C2 witness: the amended statement at a missing key (file absent) and
at a concrete expired entry. -/
theorem C2_raise_only_on_raw_miss_witness :
    (get (none : Store String) "k" .pyNone true 10).1
      = .error .keyNotFoundError ∧
    (get (some [("k", (⟨5, some "v"⟩ : Payload String))]) "k" .pyNone
      true 10).1 = .ok .pyNone :=
  ⟨(C2_raise_only_on_raw_miss (none : Store String) "k" .pyNone 10).1 rfl,
   (C2_raise_only_on_raw_miss
      (some [("k", (⟨5, some "v"⟩ : Payload String))]) "k" .pyNone 10).2
      ⟨5, some "v"⟩ rfl (by decide) (by decide)⟩

/-- C3: round trip — `set(path, k, v, ttl = T)` with `T > 0` followed by
a `get(path, k)` before `T` seconds elapse (`now' < now + T`) returns
`v`: the stored payload decodes back to the original value and the
expiry check does not fire. -/
theorem C3_set_get_roundtrip (store : Store α) (k : String) (v : α)
    (T now now' : Int) (dflt : PyVal α) (r : Bool)
    (hT : 0 < T) (h2 : now' < now + T) :
    (get (set store k v T now true).2 k dflt r now').1 = .ok (.ofVal v) := by
  have hl : read_value (set store k v T now true).2 k
      = some ⟨now + T, some v⟩ := by
    simp [set, read_value, dbLookup_dbInsert_self]
  have hc : ¬((⟨now + T, some v⟩ : Payload α).exp ≠ 0 ∧
      now' ≥ (⟨now + T, some v⟩ : Payload α).exp) := by
    rintro ⟨-, hge⟩
    simp only [Payload.exp] at hge
    omega
  simp only [get, hl, if_neg hc]

/-- C3 witness: the round trip at `T = 300`, `now = 1000`,
`now' = 1005`. -/
theorem C3_set_get_roundtrip_witness :
    (0 : Int) < 300 ∧ (1005 : Int) < 1000 + 300 ∧
    (get (set (none : Store String) "k" "v" 300 1000 true).2 "k" .pyNone
      false 1005).1 = .ok (.ofVal "v") :=
  ⟨by decide, by decide,
   C3_set_get_roundtrip (none : Store String) "k" "v" 300 1000 1005
     .pyNone false (by decide) (by decide)⟩

/-- C4 counterexample: at cutoff `older_than_ts = 0` the claim's
characterization fails — `0` is falsy, so the code replaces the cutoff
by `now() = 10` and deletes the entry with `exp = 5` even though
`0 > 5` is false, i.e. an entry the claim says must survive. -/
theorem C4_zero_cutoff_cex :
    (clean (some [("k", (⟨5, some "v"⟩ : Payload String))]) (some 0) 10
      false).2 = some [] ∧
    ¬((0 : Int) > 5) :=
  ⟨rfl, by decide⟩

/-- C4 amended: for every store state and every non-falsy cutoff
(`older_than_ts ≠ 0`; a falsy cutoff is first replaced by `now()`),
`clean` deletes exactly the entries whose payload has `exp ≠ 0` and
`older_than_ts > exp` and keeps every other entry; in particular, with
expiries `{now+5, now+15, now+25}` and cutoff `now+20`, exactly the
first two are removed and the third remains enumerable. -/
theorem C4_clean_deletes_exactly_stale (store : Store α) (t now : Int)
    (c : Bool) (ht : t ≠ 0) (k : String) (p : Payload α) :
    (k, p) ∈ (clean store (some t) now c).2.getD [] ↔
      ((k, p) ∈ store.getD [] ∧ ¬(p.exp ≠ 0 ∧ t > p.exp)) := by
  simp only [clean, if_neg ht, Option.getD_some]
  exact mem_cleanDb t (store.getD []) k p

/-- A concrete store for the clean sweep example: entries with expiries
`now + 5`, `now + 15`, `now + 25` at `now = 100`. -/
def sweepStore : Store String :=
  some [("a", ⟨105, some "x"⟩), ("b", ⟨115, some "y"⟩),
        ("c", ⟨125, some "z"⟩)]

/-- C4 witness: the amended statement on `sweepStore` with cutoff
`now + 20 = 120`: the `105` and `115` entries are gone, the `125` entry
survives, and a subsequent `list` enumerates only its key. -/
theorem C4_clean_deletes_exactly_stale_witness :
    (120 : Int) ≠ 0 ∧
    ¬(("a", (⟨105, some "x"⟩ : Payload String))
        ∈ (clean sweepStore (some 120) 100 false).2.getD []) ∧
    ¬(("b", (⟨115, some "y"⟩ : Payload String))
        ∈ (clean sweepStore (some 120) 100 false).2.getD []) ∧
    (("c", (⟨125, some "z"⟩ : Payload String))
        ∈ (clean sweepStore (some 120) 100 false).2.getD []) ∧
    (list (clean sweepStore (some 120) 100 false).2 true).1
      = .ok [("c", none)] := by
  refine ⟨by decide, ?_, ?_, ?_, rfl⟩
  · rw [C4_clean_deletes_exactly_stale sweepStore 120 100 false
      (by decide) "a" ⟨105, some "x"⟩]
    decide
  · rw [C4_clean_deletes_exactly_stale sweepStore 120 100 false
      (by decide) "b" ⟨115, some "y"⟩]
    decide
  · rw [C4_clean_deletes_exactly_stale sweepStore 120 100 false
      (by decide) "c" ⟨125, some "z"⟩]
    decide

/-- C5 counterexample: a successful `cache.set` returns Python `None`
(its body ends without a return statement), not the stored value. -/
theorem C5_cache_set_returns_none_cex :
    (set (none : Store String) "k" "v" 300 1000 true).1 = .ok none ∧
    (Except.ok (none : Option String) : Except CacheErr (Option String))
      ≠ .ok (some "v") := by
  refine ⟨rfl, fun h => ?_⟩
  simp at h

/-- C5 amended: `cache.set` returns `None` on success; it is the
workflow node `set` of `set.py` that returns the stored value (after a
successful `cache.set` on a valid message). -/
theorem C5_setNode_returns_value (store : Store String) (now : Int)
    (fn k v : String) (es : Option Int)
    (hfn : (strHasChar fn '/' || strHasChar fn '\\' || strHasChar fn '.')
      = false) :
    (set store k v (es.getD 300) now true).1 = .ok none ∧
    setNode ⟨some fn, some k, some v, es⟩ store now true
      = .ok (v, (set store k v (es.getD 300) now true).2) := by
  refine ⟨rfl, ?_⟩
  simp [setNode, hfn, set]

/-- C5 witness: the amended statement on a valid message with filename
"mycache" and default expiry. -/
theorem C5_setNode_returns_value_witness :
    (strHasChar "mycache" '/' || strHasChar "mycache" '\\'
      || strHasChar "mycache" '.') = false ∧
    (set (none : Store String) "k" "v" 300 1000 true).1 = .ok none ∧
    setNode ⟨some "mycache", some "k", some "v", none⟩
      (none : Store String) 1000 true
      = .ok ("v", (set (none : Store String) "k" "v" 300 1000 true).2) := by
  have hfn : (strHasChar "mycache" '/' || strHasChar "mycache" '\\'
      || strHasChar "mycache" '.') = false := by decide
  exact ⟨hfn,
    C5_setNode_returns_value (none : Store String) 1000 "mycache" "k" "v"
      none hfn⟩

end WkflwsDbm
